import Mathlib

/-!
Verification of the image-resizer batch dispatcher
(`src/folderResizer.py` and `src/imageResizer.py`).

The two Python modules are shallowly embedded below. Python strings are
Lean `String`s, Python ints are Lean `Int`s, and the observable effects of
a run (messages printed by the dispatcher, external-tool command lines
dispatched, exit status) are collected in explicit result structures.
`pathlib` operations used by the code (`Path.name`, `Path.stem`,
`Path.suffix`, `Path.as_posix`) are modelled on character lists, following
CPython's `pathlib` rules for plain relative file paths (the only paths the
program builds or is given): `name` is the part after the last slash,
`suffix` is the part of `name` from its last dot when that dot is neither
the first nor the last character of `name` (else empty), `stem` is the rest
of `name`, and `as_posix` of the paths constructed here differs from the
given string only by dropping a leading "./".
-/

namespace PyPath

/-- Characters of the final path component: everything after the last '/'
(CPython `PurePosixPath.name` for a plain relative file path). -/
def nameChars (p : List Char) : List Char :=
  (p.reverse.takeWhile (fun c => c ≠ '/')).reverse

/-- Python `Path.name`. -/
def name (p : String) : String := ⟨nameChars p.data⟩

/-- Index of the last '.' in the list, if any (CPython `str.rfind('.')`). -/
def rfindDot : List Char → Option Nat
  | [] => none
  | c :: cs =>
    match rfindDot cs with
    | some j => some (j + 1)
    | none => if c = '.' then some 0 else none

/-- CPython `pathlib` stem/suffix split of a file name `n`: with `i` the
index of the last dot, if `0 < i < n.length - 1` the suffix is `n[i:]` and
the stem `n[:i]`; otherwise the suffix is empty and the stem is all of `n`. -/
def splitStem (n : List Char) : List Char × List Char :=
  match rfindDot n with
  | some i => if 0 < i ∧ i + 1 < n.length then (n.take i, n.drop i) else (n, [])
  | none => (n, [])

/-- Python `Path.stem`. -/
def stem (p : String) : String := ⟨(splitStem (nameChars p.data)).1⟩

/-- Python `Path.suffix`. -/
def suffix (p : String) : String := ⟨(splitStem (nameChars p.data)).2⟩

/-- Drop a leading "./" if present. -/
def stripDotSlash (l : List Char) : List Char :=
  match l with
  | '.' :: '/' :: rest => rest
  | _ => l

/-- Python `Path(p).as_posix()` for the path strings this program builds:
the identity, except that a leading "./" is dropped (CPython normalises
`Path("./resized/a.jpg")` to `resized/a.jpg`). -/
def asPosix (p : String) : String := ⟨stripDotSlash p.data⟩

/-- Appending strings appends their character lists. -/
theorem mk_append_mk (a b : List Char) : (⟨a⟩ : String) ++ ⟨b⟩ = ⟨a ++ b⟩ := rfl

/-- The stem and the suffix recompose the file name. -/
theorem stem_append_suffix (p : String) : stem p ++ suffix p = name p := by
  unfold stem suffix name splitStem
  cases h : rfindDot (nameChars p.data) with
  | none => simp [mk_append_mk]
  | some i =>
    by_cases hc : 0 < i ∧ i + 1 < (nameChars p.data).length
    · simp [hc, mk_append_mk, List.take_append_drop]
    · simp [hc, mk_append_mk]

end PyPath

/-- One `subprocess.run` invocation as the worker performs it: the argv list,
whether stdout/stderr were redirected to `DEVNULL`, and whether `check=True`
was requested (the source leaves `check` at its default `False`). -/
structure SubprocessCall where
  command : List String
  stdoutDevnull : Bool
  stderrDevnull : Bool
  check : Bool
deriving DecidableEq

/-- The observable behaviour of one worker job. `toolExit`-dependence is made
explicit by giving the worker the external tool's exit status as an input;
`printed` are the worker's own prints and `errorRaised` records whether any
failure is raised to the caller. -/
structure WorkerRun where
  call : SubprocessCall
  printed : List String
  errorRaised : Bool
deriving DecidableEq

/-- The observable behaviour of one dispatcher run: its exit status, the
messages it prints itself (worker prints are modelled in `WorkerRun`), and
the external-tool command lines it dispatches, in job order. -/
structure RunResult where
  exitCode : Nat
  messages : List String
  calls : List (List String)
deriving DecidableEq

/-- Defaulting of `-m`/`--max-length` under argparse: the value given on the
command line, or `1999` when omitted (`default=1999` on both subcommands of
both modules, `src/folderResizer.py` lines 33/38, `src/imageResizer.py`
lines 48/53). -/
def resolveMaxLength (cli : Option Int) : Int := cli.getD 1999

/-- Defaulting of `-q`/`--quality` under argparse: the value given on the
command line, or `1` when omitted (`default=1` on both subcommands of both
modules). -/
def resolveQuality (cli : Option Int) : Int := cli.getD 1

namespace folderResizer

/-- The ffmpeg `-vf` argument built by `process_image`
(`src/folderResizer.py` line 15). -/
def scaleFilter (max_length : Int) : String :=
  "scale='if(gt(iw,ih)," ++ toString max_length ++ ",-1)':'if(gt(iw,ih),-1,"
    ++ toString max_length ++ ")'"

/-- The output path built by `process_image` (line 11):
`./resized/<stem>_resized<suffix>`. -/
def output_name (image_path : String) : String :=
  "./resized/" ++ PyPath.stem image_path ++ "_resized" ++ PyPath.suffix image_path

/-- The argv list built by `process_image` (lines 12-18). -/
def command (image_path : String) (max_length quality : Int) : List String :=
  ["ffmpeg",
   "-i", PyPath.asPosix image_path,
   "-vf", scaleFilter max_length,
   "-q:v", toString quality,
   PyPath.asPosix (output_name image_path)]

/-- Worker `process_image` (lines 10-24): run the tool with both streams to
`DEVNULL` and `check` left `False`, ignore the returned `CompletedProcess`
(hence the `_toolExit` input is unused), and print the completion notice. -/
def process_image (image_path : String) (max_length quality : Int)
    (_toolExit : Int) : WorkerRun :=
  { call := { command := command image_path max_length quality,
              stdoutDevnull := true, stderrDevnull := true, check := false },
    printed := ["Finished processing " ++ PyPath.name image_path],
    errorRaised := false }

/-- Whether a directory entry is picked up by the scan loop (lines 48-49):
`Path('.').glob('*.jpg')` and `glob('*.jpeg')` match exactly the entries
whose name ends in the (case-sensitive) pattern suffix. -/
def matchesJpg (entry : String) : Bool := (".jpg".data).isSuffixOf entry.data

/-- Entry matched by the second glob pattern, `*.jpeg`. -/
def matchesJpeg (entry : String) : Bool := (".jpeg".data).isSuffixOf entry.data

/-- Input resolution of folder mode (lines 46-49): the `*.jpg` matches then
the `*.jpeg` matches of the current directory's entries, in that order. -/
def scanImages (entries : List String) : List String :=
  entries.filter matchesJpg ++ entries.filter matchesJpeg

/-- The number printed by `Ignoring ... files` (line 50): the count of all
directory entries (`glob('*')`, which matches every entry, hidden ones
included) minus the count of matched images, as Python integers. -/
def ignoredCount (entries : List String) : Int :=
  (entries.length : Int) - ((scanImages entries).length : Int)

/-- The dispatcher body shared by both modes (`main`, lines 54-71): print the
found/parameters messages, then attempt to create `./resized` — on
`FileExistsError` print the warning and exit with status 1 dispatching
nothing; otherwise dispatch one external-tool command per input file and
print the final summary. `resizedExists` is whether `./resized` already
exists when `mkdir` runs. -/
def dispatch (images_to_process : List String) (resizedExists : Bool)
    (max_val quality_val : Int) : RunResult :=
  let pre := ["Found " ++ toString images_to_process.length ++ " images",
              "Resizing images to max length " ++ toString max_val
                ++ " with quality " ++ toString quality_val]
  if resizedExists then
    { exitCode := 1,
      messages := pre ++
        ["Please remove or rename existing 'resized' folder to ensure no file loss"],
      calls := [] }
  else
    { exitCode := 0,
      messages := pre ++
        ["Finished processing " ++ toString images_to_process.length ++ " files."],
      calls := images_to_process.map (fun p => command p max_val quality_val) }

/-- `main` in folder mode (lines 43-71): scan the current directory's
entries, print the ignored-count message, then dispatch. -/
def folderMain (entries : List String) (resizedExists : Bool)
    (max_val quality_val : Int) : RunResult :=
  let images := scanImages entries
  let r := dispatch images resizedExists max_val quality_val
  { r with messages :=
      ("Ignoring " ++ toString (ignoredCount entries) ++ " files") :: r.messages }

/-- `main` in image mode (lines 51-71): the explicit file list is dispatched
as given. -/
def imageMain (images : List String) (resizedExists : Bool)
    (max_val quality_val : Int) : RunResult :=
  dispatch images resizedExists max_val quality_val

end folderResizer

namespace imageResizer

/-- The ffmpeg `-vf` argument built by `_process_image`
(`src/imageResizer.py` line 15). -/
def scaleFilter (max_length : Int) : String :=
  "scale='if(gt(iw,ih)," ++ toString max_length ++ ",-1)':'if(gt(iw,ih),-1,"
    ++ toString max_length ++ ")'"

/-- The output path built by `_process_image` (line 11). -/
def output_name (image_path : String) : String :=
  "./resized/" ++ PyPath.stem image_path ++ "_resized" ++ PyPath.suffix image_path

/-- The argv list built by `_process_image` (lines 12-18). -/
def command (image_path : String) (max_length quality : Int) : List String :=
  ["ffmpeg",
   "-i", PyPath.asPosix image_path,
   "-vf", scaleFilter max_length,
   "-q:v", toString quality,
   PyPath.asPosix (output_name image_path)]

/-- Worker `_process_image` (lines 10-24): as in `folderResizer`, but the
completion notice is printed only when `verbose` (default `True`). -/
def _process_image (image_path : String) (max_length quality : Int)
    (_toolExit : Int) (verbose : Bool := true) : WorkerRun :=
  { call := { command := command image_path max_length quality,
              stdoutDevnull := true, stderrDevnull := true, check := false },
    printed := if verbose then ["Finished processing " ++ PyPath.name image_path]
               else [],
    errorRaised := false }

set_option linter.unusedVariables false in
/-- Public `process_images` (lines 27-39), reduced to the external-tool
command lines it dispatches: one `_process_image` job per image with the
shared `max_length`/`quality` (and `verbose` left at its default). The
`output_folder` parameter is accepted, and unused, exactly as in the
source body. -/
def process_images (images : List String) (output_folder : String)
    (max_length quality : Int) : List (List String) :=
  images.map (fun p => command p max_length quality)

/-- `main` in image mode (`src/imageResizer.py` lines 56-85): note the
slightly different resizing message of this module (line 74). -/
def dispatch (images_to_process : List String) (resizedExists : Bool)
    (max_val quality_val : Int) : RunResult :=
  let pre := ["Found " ++ toString images_to_process.length ++ " images",
              "Resizing images to max length (any side) " ++ toString max_val
                ++ " with quality " ++ toString quality_val]
  if resizedExists then
    { exitCode := 1,
      messages := pre ++
        ["Please remove or rename existing 'resized' folder to ensure no file loss"],
      calls := [] }
  else
    { exitCode := 0,
      messages := pre ++
        ["Finished processing " ++ toString images_to_process.length ++ " files."],
      calls := images_to_process.map (fun p => command p max_val quality_val) }

end imageResizer

/-- Modelled ffmpeg scale-filter semantics for the width expression
`if(gt(iw,ih),M,-1)` of `scaleFilter`: when the input is landscape
(`iw > ih`) the output width is the literal `M`; otherwise the `-1` spec
scales the width proportionally to the clamped height. Dimensions are
rationals to express exact proportionality. -/
def outWidth (M iw ih : ℚ) : ℚ := if iw > ih then M else iw * M / ih

/-- Modelled ffmpeg scale-filter semantics for the height expression
`if(gt(iw,ih),-1,M)` of `scaleFilter`: for landscape input the `-1` spec
scales the height proportionally to the clamped width; otherwise the output
height is the literal `M`. -/
def outHeight (M iw ih : ℚ) : ℚ := if iw > ih then ih * M / iw else M

/-- An entry with a recognized image extension (the spec's "matched image
entry"): it is matched by one of the two glob patterns of the scan loop. -/
def recognizedEntry (e : String) : Bool :=
  folderResizer.matchesJpg e || folderResizer.matchesJpeg e

/-- Normal form of the output path actually placed in the argv list: the
leading "./" of `output_name` is dropped by `as_posix`. -/
theorem folderResizer.out_eq (p : String) :
    PyPath.asPosix (folderResizer.output_name p)
      = "resized/" ++ PyPath.stem p ++ "_resized" ++ PyPath.suffix p := rfl

/-- No character list ends in ".jpg" and in ".jpeg" at once: lists built by
appending the two suffixes are never equal. -/
theorem jpg_jpeg_clash (t1 t2 : List Char) :
    t1 ++ ('.' :: 'j' :: 'p' :: 'g' :: []) ≠ t2 ++ ('.' :: 'j' :: 'p' :: 'e' :: 'g' :: []) := by
  intro h
  have h0 := congrArg List.reverse h
  simp at h0

/-- The two glob patterns are mutually exclusive on any entry. -/
theorem matchesJpg_not_matchesJpeg (e : String)
    (h : folderResizer.matchesJpg e = true) :
    folderResizer.matchesJpeg e = false := by
  by_contra hq
  rw [Bool.not_eq_false] at hq
  rw [folderResizer.matchesJpg, List.isSuffixOf_iff_suffix] at h
  rw [folderResizer.matchesJpeg, List.isSuffixOf_iff_suffix] at hq
  obtain ⟨t1, ht1⟩ := h
  obtain ⟨t2, ht2⟩ := hq
  exact jpg_jpeg_clash t1 t2 (ht1.trans ht2.symm)

/-- Counting a list filtered by each of two mutually exclusive predicates
counts the filter by their disjunction. -/
theorem length_filter_add_length_filter (l : List String) (p q : String → Bool)
    (h : ∀ e, p e = true → q e = false) :
    (l.filter p).length + (l.filter q).length
      = (l.filter (fun e => p e || q e)).length := by
  induction l with
  | nil => rfl
  | cons a l ih =>
    by_cases hp : p a = true
    · have hq := h a hp
      simp [List.filter_cons, hp, hq]
      omega
    · rw [Bool.not_eq_true] at hp
      by_cases hq : q a = true
      · simp [List.filter_cons, hp, hq]
        omega
      · rw [Bool.not_eq_true] at hq
        simp [List.filter_cons, hp, hq]
        omega

/-- C1: if "./resized" already exists when the dispatcher runs, the run
exits with status 1, prints the message asking the user to remove or rename
the directory, and dispatches no external-tool command, in both modules and
both modes. -/
theorem C1_preexisting_output_dir_aborts :
    ∀ (images entries : List String) (M q : Int),
      (folderResizer.dispatch images true M q).exitCode = 1 ∧
      "Please remove or rename existing 'resized' folder to ensure no file loss"
        ∈ (folderResizer.dispatch images true M q).messages ∧
      (folderResizer.dispatch images true M q).calls = [] ∧
      (folderResizer.folderMain entries true M q).exitCode = 1 ∧
      (folderResizer.folderMain entries true M q).calls = [] ∧
      (folderResizer.imageMain images true M q).exitCode = 1 ∧
      (imageResizer.dispatch images true M q).exitCode = 1 ∧
      "Please remove or rename existing 'resized' folder to ensure no file loss"
        ∈ (imageResizer.dispatch images true M q).messages ∧
      (imageResizer.dispatch images true M q).calls = [] := by
  intro images entries M q
  refine ⟨rfl, ?_, rfl, rfl, rfl, rfl, rfl, ?_, rfl⟩ <;>
    simp [folderResizer.dispatch, imageResizer.dispatch]

/-- C8: with an empty resolved input list and no pre-existing output
directory, the run dispatches zero external-tool commands, reports zero
files processed and exits with status 0. -/
theorem C8_empty_input_runs_zero_jobs :
    ∀ (M q : Int),
      (folderResizer.dispatch [] false M q).exitCode = 0 ∧
      (folderResizer.dispatch [] false M q).calls = [] ∧
      "Finished processing 0 files."
        ∈ (folderResizer.dispatch [] false M q).messages := by
  intro M q
  refine ⟨rfl, rfl, ?_⟩
  have hm : (folderResizer.dispatch [] false M q).messages
      = ["Found 0 images",
         "Resizing images to max length " ++ toString M ++ " with quality " ++ toString q,
         "Finished processing 0 files."] := rfl
  rw [hm]
  simp

/-- C7: both option parameters default as specified (max length 1999,
quality 1), and the quality in effect appears verbatim (as its decimal
rendering) right after the "-q:v" flag of every constructed command, in
both modules. -/
theorem C7_defaults_and_quality_passthrough :
    resolveMaxLength none = 1999 ∧ resolveQuality none = 1 ∧
    ∀ (p : String) (M q : Int),
      (folderResizer.command p M q).get? 5 = some "-q:v" ∧
      (folderResizer.command p M q).get? 6 = some (toString q) ∧
      (imageResizer.command p M q).get? 5 = some "-q:v" ∧
      (imageResizer.command p M q).get? 6 = some (toString q) := by
  exact ⟨rfl, rfl, fun p M q => ⟨rfl, rfl, rfl, rfl⟩⟩

/-- C6: every worker runs the external tool with stdout and stderr sent to
DEVNULL and `check` left off, prints the completion notice whatever the
tool's exit status was, and surfaces no per-job failure: the worker's whole
observable behaviour is independent of the tool's exit status, in both
modules. -/
theorem C6_worker_ignores_tool_outcome :
    ∀ (p : String) (M q e e2 : Int),
      (folderResizer.process_image p M q e).call.stdoutDevnull = true ∧
      (folderResizer.process_image p M q e).call.stderrDevnull = true ∧
      (folderResizer.process_image p M q e).call.check = false ∧
      (folderResizer.process_image p M q e).printed
        = ["Finished processing " ++ PyPath.name p] ∧
      (folderResizer.process_image p M q e).errorRaised = false ∧
      folderResizer.process_image p M q e = folderResizer.process_image p M q e2 ∧
      (imageResizer._process_image p M q e).call.stdoutDevnull = true ∧
      (imageResizer._process_image p M q e).call.stderrDevnull = true ∧
      (imageResizer._process_image p M q e).call.check = false ∧
      (imageResizer._process_image p M q e).printed
        = ["Finished processing " ++ PyPath.name p] ∧
      (imageResizer._process_image p M q e).errorRaised = false ∧
      imageResizer._process_image p M q e = imageResizer._process_image p M q e2 := by
  intro p M q e e2
  exact ⟨rfl, rfl, rfl, rfl, rfl, rfl, rfl, rfl, rfl, rfl, rfl, rfl⟩

/-- C10: per job, the two modules build the identical external-tool command
and, at the default verbosity, behave identically in every observable
respect. -/
theorem C10_modules_behaviourally_equal :
    ∀ (p : String) (M q e : Int),
      folderResizer.command p M q = imageResizer.command p M q ∧
      folderResizer.process_image p M q e = imageResizer._process_image p M q e := by
  intro p M q e
  exact ⟨rfl, rfl⟩

/-- C9: `process_images` constructs the same command lines whatever
`output_folder` it is given, and the output path of each command is the
hardcoded "resized/" directory joined with the derived file name. -/
theorem C9_output_folder_has_no_effect :
    ∀ (images : List String) (of1 of2 : String) (M q : Int),
      imageResizer.process_images images of1 M q
        = imageResizer.process_images images of2 M q ∧
      (imageResizer.process_images images of1 M q).map (fun c => c.get? 7)
        = images.map (fun p =>
            some ("resized/" ++ PyPath.stem p ++ "_resized" ++ PyPath.suffix p)) := by
  intro images of1 of2 M q
  refine ⟨rfl, ?_⟩
  rw [imageResizer.process_images, List.map_map]
  rfl

/-- C4 evidence: the scan loop's glob patterns are case-sensitive, so a file
named "photo.JPG" is not selected even though the subcommand's own help text
says ".jpg, .JPG, and .jpeg" files are searched; the lowercase variants are
selected. -/
theorem C4_uppercase_jpg_not_scanned :
    folderResizer.scanImages ["photo.JPG", "photo.jpg", "b.jpeg", "notes.txt"]
      = ["photo.jpg", "b.jpeg"] ∧
    folderResizer.matchesJpg "photo.JPG" = false ∧
    folderResizer.matchesJpeg "photo.JPG" = false := by
  decide

/-- C2: the scale filter string handed to the external tool is exactly
`scaleFilter M`, and under ffmpeg's scale semantics it clamps the larger
dimension to M and scales the other proportionally: landscape output width
is M with height proportional, portrait output height is M with width
proportional, and a square image scales to M on both sides. -/
theorem C2_scale_clamps_larger_dimension :
    (∀ (p : String) (M q : Int),
        (folderResizer.command p M q).get? 4 = some (folderResizer.scaleFilter M)) ∧
    ∀ (M iw ih : ℚ), 0 < iw → 0 < ih →
      (ih < iw → outWidth M iw ih = M ∧ outHeight M iw ih * iw = M * ih) ∧
      (iw < ih → outHeight M iw ih = M ∧ outWidth M iw ih * ih = M * iw) ∧
      (iw = ih → outWidth M iw ih = M ∧ outHeight M iw ih = M) := by
  refine ⟨fun p M q => rfl, ?_⟩
  intro M iw ih hw hh
  refine ⟨?_, ?_, ?_⟩
  · intro h
    rw [outWidth, outHeight, if_pos h, if_pos h,
      div_mul_cancel₀ _ (ne_of_gt hw)]
    exact ⟨rfl, mul_comm ih M⟩
  · intro h
    rw [outWidth, outHeight, if_neg h.asymm, if_neg h.asymm,
      div_mul_cancel₀ _ (ne_of_gt hh)]
    exact ⟨rfl, mul_comm iw M⟩
  · intro h
    subst h
    rw [outWidth, outHeight, if_neg (lt_irrefl iw), if_neg (lt_irrefl iw),
      mul_comm, mul_div_assoc, div_self (ne_of_gt hw), mul_one]
    exact ⟨rfl, rfl⟩

/-- Witness for C2 at concrete inputs: a 4:3 landscape, a 3:4 portrait and
a square image with M = 1999. -/
theorem C2_scale_clamps_larger_dimension_witness :
    ((0 : ℚ) < 4 ∧ (0 : ℚ) < 3 ∧ (3 : ℚ) < 4 ∧ (5 : ℚ) = 5) ∧
    (outWidth 1999 4 3 = 1999 ∧ outHeight 1999 4 3 * 4 = 1999 * 3) ∧
    (outHeight 1999 3 4 = 1999 ∧ outWidth 1999 3 4 * 4 = 1999 * 3) ∧
    (outWidth 1999 5 5 = 1999 ∧ outHeight 1999 5 5 = 1999) :=
  ⟨⟨by decide, by decide, by decide, rfl⟩,
   (C2_scale_clamps_larger_dimension.2 1999 4 3 (by decide) (by decide)).1 (by decide),
   (C2_scale_clamps_larger_dimension.2 1999 3 4 (by decide) (by decide)).2.1 (by decide),
   (C2_scale_clamps_larger_dimension.2 1999 5 5 (by decide) (by decide)).2.2 rfl⟩

/-- C5: in directory-scan mode the reported found count is the number of
entries matched by the recognized-extension patterns, and the reported
ignored count is the total number of directory entries minus that number. -/
theorem C5_found_and_ignored_counts :
    ∀ (entries : List String),
      (folderResizer.scanImages entries).length
          = (entries.filter recognizedEntry).length ∧
      folderResizer.ignoredCount entries
          = (entries.length : Int) - ((entries.filter recognizedEntry).length : Int) := by
  intro entries
  have hlen : (folderResizer.scanImages entries).length
      = (entries.filter recognizedEntry).length := by
    rw [folderResizer.scanImages, List.length_append]
    exact length_filter_add_length_filter entries _ _ matchesJpg_not_matchesJpeg
  exact ⟨hlen, by rw [folderResizer.ignoredCount, hlen]⟩

/-- Output paths built from inputs whose suffixes are ".jpg" or ".jpeg" are
equal only when the input file names are equal. -/
theorem out_name_inj (p1 p2 : String)
    (h1 : PyPath.suffix p1 = ".jpg" ∨ PyPath.suffix p1 = ".jpeg")
    (h2 : PyPath.suffix p2 = ".jpg" ∨ PyPath.suffix p2 = ".jpeg")
    (heq : PyPath.asPosix (folderResizer.output_name p1)
         = PyPath.asPosix (folderResizer.output_name p2)) :
    PyPath.name p1 = PyPath.name p2 := by
  rw [folderResizer.out_eq, folderResizer.out_eq] at heq
  have hd := congrArg String.data heq
  simp only [String.data_append, List.append_assoc] at hd
  have hd2 := List.append_cancel_left hd
  have ejpg : (".jpg" : String).data = '.' :: 'j' :: 'p' :: 'g' :: [] := rfl
  have ejpeg : (".jpeg" : String).data = '.' :: 'j' :: 'p' :: 'e' :: 'g' :: [] := rfl
  rw [← PyPath.stem_append_suffix p1, ← PyPath.stem_append_suffix p2]
  rcases h1 with hs1 | hs1 <;> rcases h2 with hs2 | hs2 <;>
      rw [hs1, hs2] at hd2 ⊢ <;>
      rw [← List.append_assoc, ← List.append_assoc] at hd2
  · have hst := List.append_cancel_right (List.append_cancel_right hd2)
    rw [String.ext hst]
  · rw [ejpg, ejpeg] at hd2
    exact absurd hd2 (jpg_jpeg_clash _ _)
  · rw [ejpg, ejpeg] at hd2
    exact absurd hd2.symm (jpg_jpeg_clash _ _)
  · have hst := List.append_cancel_right (List.append_cancel_right hd2)
    rw [String.ext hst]

/-- Counterexample refuting C3 as frozen: two distinct input paths with the
same file name ("a/x.jpg" and "b/x.jpg") are dispatched as two jobs whose
output paths coincide, and even two distinct file names ("x_resized." and
"x._resized") can collide on the output path. -/
theorem C3_distinct_outputs_counterexample :
    ("a/x.jpg" : String) ≠ "b/x.jpg" ∧
    (folderResizer.dispatch ["a/x.jpg", "b/x.jpg"] false 1999 1).calls.length = 2 ∧
    ¬ (((folderResizer.dispatch ["a/x.jpg", "b/x.jpg"] false 1999 1).calls.map
          (fun c => c.get? 7)).Pairwise (fun a b => a ≠ b)) ∧
    PyPath.name "x_resized." ≠ PyPath.name "x._resized" ∧
    ¬ (((["x_resized.", "x._resized"] : List String).map
          (fun p => PyPath.asPosix (folderResizer.output_name p))).Pairwise
          (fun a b => a ≠ b)) := by
  decide

/-- C3 as amended: the dispatcher invokes the external tool exactly once per
input file, each invocation's output path is the fixed "./resized" directory
joined with `<stem>_resized<suffix>`, and — provided the inputs' suffixes
are the recognized ".jpg"/".jpeg" ones and their file names are pairwise
distinct, as directory-scan mode guarantees — the output paths are pairwise
distinct. -/
theorem C3_jobs_and_output_paths :
    ∀ (images : List String) (M q : Int),
      (folderResizer.dispatch images false M q).calls.length = images.length ∧
      (folderResizer.dispatch images false M q).calls.map (fun c => c.get? 7)
        = images.map (fun p => some (PyPath.asPosix (folderResizer.output_name p))) ∧
      (∀ p, folderResizer.output_name p
          = "./resized/" ++ PyPath.stem p ++ "_resized" ++ PyPath.suffix p) ∧
      ((∀ p ∈ images, PyPath.suffix p = ".jpg" ∨ PyPath.suffix p = ".jpeg") →
        images.Pairwise (fun p1 p2 => PyPath.name p1 ≠ PyPath.name p2) →
        (images.map (fun p => PyPath.asPosix (folderResizer.output_name p))).Pairwise
          (fun a b => a ≠ b)) := by
  intro images M q
  refine ⟨by rw [folderResizer.dispatch]; simp, ?_, fun p => rfl, ?_⟩
  · show (images.map (fun p => folderResizer.command p M q)).map (fun c => c.get? 7)
        = images.map (fun p => some (PyPath.asPosix (folderResizer.output_name p)))
    rw [List.map_map]
    rfl
  · intro hsuf hnames
    rw [List.pairwise_map]
    exact hnames.imp_of_mem (fun ha hb hne hout =>
      hne (out_name_inj _ _ (hsuf _ ha) (hsuf _ hb) hout))

/-- Witness for the amended C3 on the concrete input list ["a.jpg",
"b.jpeg"]: the hypotheses hold there and the two dispatched jobs have
distinct output paths. -/
theorem C3_jobs_and_output_paths_witness :
    ((∀ p ∈ (["a.jpg", "b.jpeg"] : List String),
        PyPath.suffix p = ".jpg" ∨ PyPath.suffix p = ".jpeg") ∧
     (["a.jpg", "b.jpeg"] : List String).Pairwise
        (fun p1 p2 => PyPath.name p1 ≠ PyPath.name p2)) ∧
    (folderResizer.dispatch ["a.jpg", "b.jpeg"] false 1999 1).calls.length = 2 ∧
    ((["a.jpg", "b.jpeg"] : List String).map
        (fun p => PyPath.asPosix (folderResizer.output_name p))).Pairwise
      (fun a b => a ≠ b) :=
  ⟨⟨by decide, by decide⟩,
   (C3_jobs_and_output_paths ["a.jpg", "b.jpeg"] 1999 1).1,
   (C3_jobs_and_output_paths ["a.jpg", "b.jpeg"] 1999 1).2.2.2 (by decide) (by decide)⟩
